import Mathlib

/-!
# Product catalog service

A shallow embedding of `server/app.js` (the Express handlers for create, list,
download, full update, partial update and delete) and of the download handler of
`client/src/components/ProductUploader.jsx`.

Modelling conventions.

* A product document has the paths of the Mongoose model of `app.js` (lines 39 to
  44): `_id`, `name`, `description`, `price`, `imagePath`, and the version key
  `__v`. A path is absent, `null`, or holds a value of the type of the path. Keys
  outside the schema are not part of a stored document.
* An identifier is an ObjectId, written as 24 hexadecimal characters. A route
  parameter that is not of that form makes `findById` and `findOneAndDelete`
  throw, and the `catch` of the handler answers 500.
* Assigning to a path casts the value; a value that the cast rejects, or a change
  of `_id`, makes the later `save()` reject, and the `catch` answers 500 with
  nothing written.
* What the libraries compute is taken as an argument (`Library`, `extname`): the
  casts of the schema types, the effect on `save()` of assigning a key that is
  not a path, the `Content-Disposition` header of `res.download`, and the file a
  path resolves to. The clock (`Date.now()`), the identifier of a new document
  and the directory of the server module (`__dirname`) are arguments too.
* The Image Store is the `uploads` directory: an association list from file
  names to file contents.
-/

namespace Catalog

/-! ## JavaScript values and objects -/

/-- JavaScript values as they occur in parsed request bodies and in responses. -/
inductive JsVal where
  | undefined : JsVal
  | null : JsVal
  | bool (b : Bool) : JsVal
  | num (q : ℚ) : JsVal
  | str (s : String) : JsVal
  | arr (items : List JsVal) : JsVal
  | obj (fields : List (String × JsVal)) : JsVal

/-- A JavaScript object: keys with their values, in insertion order. -/
abbrev JsObject := List (String × JsVal)

/-- JavaScript truthiness (`ToBoolean`): `undefined`, `null`, `false`, `0` and the empty
string are falsy, everything else (every array and object included) is truthy. -/
def truthy : JsVal → Bool
  | .undefined => false
  | .null => false
  | .bool b => b
  | .num q => decide (q ≠ 0)
  | .str s => decide (s ≠ "")
  | .arr _ => true
  | .obj _ => true

/-- Property read `o[k]`; an absent key reads as `undefined`. -/
def getField : JsObject → String → JsVal
  | [], _ => .undefined
  | (k', v) :: rest, k => if k' = k then v else getField rest k

/-! ## Product documents -/

/-- The content of a schema path: absent, `null`, or a value of the type of the path. -/
inductive Field (α : Type) where
  | absent : Field α
  | null : Field α
  | val (a : α) : Field α
  deriving DecidableEq

/-- A document of the model `Product` (lines 39 to 44), with the identifier and the
version key that Mongoose adds. -/
structure Product where
  _id : String
  name : Field String
  description : Field String
  price : Field ℚ
  imagePath : Field String
  __v : Field ℚ
  deriving DecidableEq

/-- The JavaScript value read from a text path, as in `existingProduct.name`. -/
def textValue : Field String → JsVal
  | .absent => .undefined
  | .null => .null
  | .val s => .str s

/-- The JavaScript value read from a number path, as in `existingProduct.price`. -/
def numberValue : Field ℚ → JsVal
  | .absent => .undefined
  | .null => .null
  | .val q => .num q

/-- The entry of a path in the JSON form of a document: an absent path has none. -/
def pathEntry (key : String) (v : JsVal) : JsObject :=
  match v with
  | .undefined => []
  | other => [(key, other)]

/-- The JSON form of a document, as `res.json` sends it. -/
def toObject (p : Product) : JsObject :=
  [("_id", .str p._id)] ++ pathEntry "name" (textValue p.name)
    ++ pathEntry "description" (textValue p.description)
    ++ pathEntry "price" (numberValue p.price)
    ++ pathEntry "imagePath" (textValue p.imagePath)
    ++ pathEntry "__v" (numberValue p.__v)

/-- What the libraries compute for the handlers. -/
structure Library where
  /-- The cast of the schema type `String`; `none` is a cast error. -/
  castString : JsVal → Option (Field String)
  /-- The cast of the schema type `Number`; `none` is a cast error. -/
  castNumber : JsVal → Option (Field ℚ)
  /-- Whether assigning the value to a key that is not a schema path makes the later
  `save()` call fail, as assigning the key `save` does. -/
  breaksSave : String → JsVal → Bool
  /-- The `Content-Disposition` header that `res.download` sets for a file name. -/
  contentDisposition : String → String
  /-- The content of the file that `path.join(__dirname, 'uploads', imagePath)` names,
  given the content of `uploads/`, or `none` when `res.download` cannot read it. -/
  resolveFile : List (String × List Nat) → String → String → Option (List Nat)

/-! ## Product repository -/

/-- Whether a character is a hexadecimal digit. -/
def isHexChar (c : Char) : Bool :=
  c.isDigit || ('a' ≤ c && c ≤ 'f') || ('A' ≤ c && c ≤ 'F')

/-- Whether a text is a well-formed ObjectId: 24 hexadecimal characters. -/
def isObjectId (text : String) : Bool :=
  text.data.length == 24 && text.data.all isHexChar

/-- The identifier a well-formed text denotes: hexadecimal digits in lower case. -/
def canonicalId (text : String) : String :=
  String.mk (text.data.map Char.toLower)

/-- The identifier of a document: its `_id`. -/
def docId (d : Product) : String :=
  d._id

/-- Whether document `d` is the one that the route parameter `productId` names. -/
def hasId (d : Product) (productId : String) : Bool :=
  isObjectId productId && decide (docId d = canonicalId productId)

/-- The query `Product.findById(productId)`: it throws a cast error for a parameter that
is not a well-formed ObjectId. -/
def findById (products : List Product) (productId : String) :
    Except String (Option Product) :=
  if isObjectId productId then .ok (products.find? (fun d => hasId d productId))
  else .error "CastError"

/-- The call `existingProduct.save()` for the document fetched under `productId`, once
validation has passed: the document is written back in place of the fetched one. -/
def saveDoc : List Product → String → Product → List Product
  | [], _, _ => []
  | d :: rest, productId, updated =>
    if hasId d productId then updated :: rest else d :: saveDoc rest productId updated

/-- The first document that `productId` names, if any, and the collection without it. -/
def removeFirst : List Product → String → Option Product × List Product
  | [], _ => (none, [])
  | d :: rest, productId =>
    if hasId d productId then (some d, rest)
    else ((removeFirst rest productId).1, d :: (removeFirst rest productId).2)

/-- The query `Product.findOneAndDelete({ _id: productId })`: the first match, if any, is
removed and returned; it throws a cast error for a parameter that is not a well-formed
ObjectId. -/
def findOneAndDelete (products : List Product) (productId : String) :
    Except String (Option Product × List Product) :=
  if isObjectId productId then .ok (removeFirst products productId)
  else .error "CastError"

/-! ## Server state, requests and responses -/

/-- The persisted state: the product collection and the Image Store (`uploads/`). -/
structure ServerState where
  products : List Product
  uploads : List (String × List Nat)
  deriving DecidableEq

/-- What a handler sends back. -/
inductive ResBody where
  | json (v : JsVal) : ResBody
  | download (pathSegments : List String) (filename : String) (content : List Nat) : ResBody

/-- An HTTP response: status, the `Content-Disposition` and `Content-Type` headers of a
download (other headers are not recorded), and the body. -/
structure Response where
  status : Nat
  headers : List (String × String)
  body : ResBody

/-- The file part of a multipart request (field `image`). -/
structure UploadedFile where
  originalname : String
  content : List Nat

/-- A multipart create request after parsing: text fields and the optional file. -/
structure CreateRequest where
  body : JsObject
  file : Option UploadedFile

/-- A JSON response `res.status(code).json({ key: text })`. -/
def jsonMessage (code : Nat) (key text : String) : Response :=
  ⟨code, [], .json (.obj [(key, .str text)])⟩

/-- The answer of the `catch` branch of the update, delete and download handlers. -/
def serverError : Response :=
  jsonMessage 500 "message" "Server Error"

/-- The answer `res.json({ message: 'Product updated successfully', updatedProduct })`. -/
def updatedResponse (updatedProduct : Product) : Response :=
  ⟨200, [], .json (.obj [("message", .str "Product updated successfully"),
    ("updatedProduct", .obj (toObject updatedProduct))])⟩

/-! ## Image Store -/

/-- The `filename` callback of `multer.diskStorage`:
`Date.now() + path.extname(file.originalname)`. -/
def storageFilename (extname : String → String) (now : Nat) (originalname : String) : String :=
  toString now ++ extname originalname

/-- Writing a file into `uploads/`: a file of the same name is overwritten. -/
def writeFile : List (String × List Nat) → String → List Nat → List (String × List Nat)
  | [], name, content => [(name, content)]
  | (n, c) :: rest, name, content =>
    if n = name then (name, content) :: rest else (n, c) :: writeFile rest name content

/-- Reading a file of `uploads/` by name. -/
def readFile : List (String × List Nat) → String → Option (List Nat)
  | [], _ => none
  | (n, c) :: rest, name => if n = name then some c else readFile rest name

/-! ## Handlers of `server/app.js` -/

/-- The handler `app.post('/api/products', upload.single('image'), ...)`. The multer
middleware stores the file, if there is one, before the handler body runs. The document
is built from the cast request fields; a cast error makes `newProduct.save()` reject, and
the `catch` answers 500 with the file already written. -/
def createProduct (extname : String → String) (lib : Library) (now : Nat) (newId : String)
    (s : ServerState) (req : CreateRequest) : Response × ServerState :=
  match req.file with
  | none => (jsonMessage 400 "error" "No image file provided", s)
  | some file =>
    let filename := storageFilename extname now file.originalname
    let uploads := writeFile s.uploads filename file.content
    let name := getField req.body "name"
    let description := getField req.body "description"
    let price := getField req.body "price"
    match lib.castString name, lib.castString description, lib.castNumber price with
    | some castName, some castDescription, some castPrice =>
      let newProduct : Product :=
        ⟨newId, castName, castDescription, castPrice, .val filename, .val 0⟩
      (jsonMessage 201 "message" "Product uploaded successfully",
        ⟨s.products ++ [newProduct], uploads⟩)
    | _, _, _ =>
      (jsonMessage 500 "error" "Failed to upload product", ⟨s.products, uploads⟩)

/-- The handler `app.get('/api/products', ...)`. -/
def listProducts (s : ServerState) : Response :=
  ⟨200, [], .json (.arr (s.products.map (fun p => JsVal.obj (toObject p))))⟩

/-- The value that line 106 sets for the `Content-Disposition` header. -/
def dispositionHeader (imagePath : String) : String :=
  "attachment; filename=" ++ imagePath

/-- The handler `app.get('/api/products/:productId/download', ...)`. When `res.download`
sends the file it sets `Content-Disposition` itself, in place of the value of line 106;
when it cannot read the file the error callback answers 500 in JSON, under the headers
set before. -/
def downloadProduct (lib : Library) (dirname : String) (s : ServerState)
    (productId : String) : Response :=
  match findById s.products productId with
  | .error _ => serverError
  | .ok none => jsonMessage 404 "message" "Product or file not found"
  | .ok (some product) =>
    if !truthy (textValue product.imagePath) then
      jsonMessage 404 "message" "Product or file not found"
    else
      match product.imagePath with
      | .val imagePath =>
        match lib.resolveFile s.uploads dirname imagePath with
        | some content =>
          ⟨200, [("Content-Disposition", lib.contentDisposition imagePath),
              ("Content-Type", "image/jpeg")],
            .download [dirname, "uploads", imagePath] imagePath content⟩
        | none =>
          ⟨500, [("Content-Disposition", dispositionHeader imagePath),
              ("Content-Type", "image/jpeg; charset=utf-8")],
            .json (.obj [("message", .str "Server Error")])⟩
      | _ => jsonMessage 404 "message" "Product or file not found"

/-- The handler `app.put('/api/products/:productId', ...)`. Each of lines 138 to 146
assigns the request's value when it is truthy, which casts it, and leaves the path as it
is otherwise; `save()` rejects when a cast has failed. -/
def putProduct (lib : Library) (s : ServerState) (productId : String) (body : JsObject) :
    Response × ServerState :=
  match findById s.products productId with
  | .error _ => (serverError, s)
  | .ok none => (jsonMessage 404 "message" "Product not found", s)
  | .ok (some existingProduct) =>
    let name := getField body "name"
    let description := getField body "description"
    let price := getField body "price"
    let imagePath := getField body "imagePath"
    match (if truthy name then lib.castString name else some existingProduct.name),
      (if truthy description then lib.castString description
        else some existingProduct.description),
      (if truthy price then lib.castNumber price else some existingProduct.price),
      (if truthy imagePath then lib.castString imagePath
        else some existingProduct.imagePath) with
    | some newName, some newDescription, some newPrice, some newImagePath =>
      let updatedProduct : Product :=
        ⟨existingProduct._id, newName, newDescription, newPrice, newImagePath,
          existingProduct.__v⟩
      (updatedResponse updatedProduct,
        ⟨saveDoc s.products productId updatedProduct, s.uploads⟩)
    | _, _, _, _ => (serverError, s)

/-- Whether a value assigned to `_id` denotes the identifier the document has. -/
def sameObjectId (v : JsVal) (current : String) : Bool :=
  match v with
  | .str text => isObjectId text && decide (canonicalId text = current)
  | _ => false

/-- One assignment `existingProduct[field] = value` of the PATCH loop. The state is the
document and whether the later `save()` is bound to fail. A schema path casts the value,
`_id` cannot change, and a key that is not a path leaves the stored document as it is. -/
def assignField (lib : Library) (draft : Product × Bool) (field : String) (value : JsVal) :
    Product × Bool :=
  if field = "name" then
    match lib.castString value with
    | some v => ({ draft.1 with name := v }, draft.2)
    | none => (draft.1, true)
  else if field = "description" then
    match lib.castString value with
    | some v => ({ draft.1 with description := v }, draft.2)
    | none => (draft.1, true)
  else if field = "price" then
    match lib.castNumber value with
    | some v => ({ draft.1 with price := v }, draft.2)
    | none => (draft.1, true)
  else if field = "imagePath" then
    match lib.castString value with
    | some v => ({ draft.1 with imagePath := v }, draft.2)
    | none => (draft.1, true)
  else if field = "__v" then
    match lib.castNumber value with
    | some v => ({ draft.1 with __v := v }, draft.2)
    | none => (draft.1, true)
  else if field = "_id" then
    (draft.1, draft.2 || !sameObjectId value draft.1._id)
  else
    (draft.1, draft.2 || lib.breaksSave field value)

/-- The loop `Object.keys(updateFields).forEach(field => existingProduct[field] =
updateFields[field])` of the PATCH handler. -/
def applyPartialUpdate (lib : Library) (existingProduct : Product)
    (updateFields : JsObject) : Product × Bool :=
  (updateFields.map Prod.fst).foldl
    (fun draft field => assignField lib draft field (getField updateFields field))
    (existingProduct, false)

/-- The handler `app.patch('/api/products/:productId', ...)`. -/
def patchProduct (lib : Library) (s : ServerState) (productId : String)
    (updateFields : JsObject) : Response × ServerState :=
  match findById s.products productId with
  | .error _ => (serverError, s)
  | .ok none => (jsonMessage 404 "message" "Product not found", s)
  | .ok (some existingProduct) =>
    if (applyPartialUpdate lib existingProduct updateFields).2 then (serverError, s)
    else
      (updatedResponse (applyPartialUpdate lib existingProduct updateFields).1,
        ⟨saveDoc s.products productId (applyPartialUpdate lib existingProduct updateFields).1,
          s.uploads⟩)

/-- The handler `app.delete('/api/products/:productId', ...)`. -/
def deleteProduct (s : ServerState) (productId : String) : Response × ServerState :=
  match findOneAndDelete s.products productId with
  | .error _ => (serverError, s)
  | .ok (none, _) => (jsonMessage 404 "message" "Product not found", s)
  | .ok (some _, remaining) =>
    (jsonMessage 200 "message" "Product deleted successfully", ⟨remaining, s.uploads⟩)

/-! ## Client download handler -/

/-- The scan behind `String.prototype.split` for a non-empty separator: `skip` counts the
characters of a matched separator still to be consumed, `cur` is the current piece,
reversed. -/
def splitGo (sep : List Char) : List Char → Nat → List Char → List (List Char)
  | [], _, cur => [cur.reverse]
  | _ :: rest, skip + 1, cur => splitGo sep rest skip cur
  | c :: rest, 0, cur =>
    if sep.isPrefixOf (c :: rest) then cur.reverse :: splitGo sep rest (sep.length - 1) []
    else splitGo sep rest 0 (c :: cur)

/-- The call `s.split(sep)` for a non-empty separator. -/
def jsSplit (s sep : String) : List String :=
  (splitGo sep.data s.data 0 []).map String.mk

/-- The file name computed by `handleDownload` (line 104): the second piece of the
`content-disposition` header split on `filename=` when the header is present and
non-empty, a generated default otherwise. `none` stands for `undefined`. -/
def downloadFileName (contentDisposition : Option String) (productId : String) :
    Option String :=
  match contentDisposition with
  | some header =>
    if header ≠ "" then (jsSplit header "filename=")[1]?
    else some ("product_" ++ productId ++ ".jpg")
  | none => some ("product_" ++ productId ++ ".jpg")

/-- The value of a response header, as the client reads it. -/
def headerValue (r : Response) (name : String) : Option String :=
  (r.headers.find? (fun h => h.1 = name)).map Prod.snd

/-! ## Decimal numerals -/

/-- The number a decimal digit character stands for. -/
def digitValue (c : Char) : Nat :=
  c.toNat - 48

/-- The number a string of decimal digits stands for. -/
def decimalValue (cs : List Char) : Nat :=
  cs.foldl (fun acc c => acc * 10 + digitValue c) 0

/-! ## Sample data -/

/-- The cast of `String` on the values the examples use: text stays, `undefined` and
`null` stay, a boolean becomes its name; an array is a cast error, and so is, in this
instance, any other value. -/
def exampleCastString : JsVal → Option (Field String)
  | .undefined => some .absent
  | .null => some .null
  | .str s => some (.val s)
  | .bool b => some (.val (if b then "true" else "false"))
  | _ => none

/-- The cast of `Number` on the values the examples use: a number stays, `undefined` and
`null` stay, the empty text becomes `null`, a text of decimal digits becomes the number
it writes, a boolean becomes 1 or 0; an array or object is a cast error, and so is, in
this instance, any other text (the examples use `abc`, which is not a number). -/
def exampleCastNumber : JsVal → Option (Field ℚ)
  | .undefined => some .absent
  | .null => some .null
  | .num q => some (.val q)
  | .bool b => some (.val (if b then 1 else 0))
  | .str s =>
    if s = "" then some .null
    else if s.data.all Char.isDigit then some (.val (decimalValue s.data))
    else none
  | _ => none

/-- The header of `res.download` for a plain file name: the name in double quotes. -/
def quotedDisposition (filename : String) : String :=
  "attachment; filename=\"" ++ filename ++ "\""

/-- A library for the examples: the casts above, `save` as the key whose assignment
breaks `save()`, the quoted header, and files read from `uploads/` by plain name (the
server runs in its own directory). -/
def exampleLibrary : Library :=
  ⟨exampleCastString, exampleCastNumber, fun field _ => decide (field = "save"),
    quotedDisposition, fun uploads _ imagePath => readFile uploads imagePath⟩

/-- A stored product whose image is `1700000000000.jpg`. -/
def sampleProduct : Product :=
  ⟨"65a1b2c3d4e5f60718293a4b", .val "Lamp", .val "Desk lamp", .val 20,
    .val "1700000000000.jpg", .val 0⟩

/-- A second stored product. -/
def otherProduct : Product :=
  ⟨"65a1b2c3d4e5f60718293a4c", .val "Chair", .val "Oak chair", .val 75,
    .val "1700000000001.png", .val 0⟩

/-- A state with two products and their two image files. -/
def sampleState : ServerState :=
  ⟨[sampleProduct, otherProduct],
   [("1700000000000.jpg", [255, 216, 255]), ("1700000000001.png", [137, 80, 78, 71])]⟩

/-- A state in which a product names an image file that the Image Store does not hold,
as after a full update with body `{ imagePath: "ghost.jpg" }`. -/
def danglingState : ServerState :=
  ⟨[⟨"65a1b2c3d4e5f60718293a4b", .val "Lamp", .val "Desk lamp", .val 20,
      .val "ghost.jpg", .val 0⟩],
   [("1700000000000.jpg", [255, 216, 255])]⟩

/-- A state whose product was uploaded from a file named `photo.filename=x`, so that its
stored file name is `1700000000000.filename=x`. -/
def trickyState : ServerState :=
  ⟨[⟨"65a1b2c3d4e5f60718293a4b", .val "Lamp", .val "Desk lamp", .val 20,
      .val "1700000000000.filename=x", .val 0⟩],
   [("1700000000000.filename=x", [255, 216, 255])]⟩

/-! ## Repository lemmas -/

theorem isObjectId_of_hasId (d : Product) (productId : String)
    (h : hasId d productId = true) : isObjectId productId = true := by
  unfold hasId at h
  simp only [Bool.and_eq_true] at h
  exact h.1

theorem docId_eq_of_hasId (d : Product) (productId : String) (h : hasId d productId = true) :
    docId d = canonicalId productId := by
  unfold hasId at h
  simp only [Bool.and_eq_true, decide_eq_true_eq] at h
  exact h.2

theorem hasId_of_docId_eq (d d' : Product) (productId : String) (h : docId d' = docId d) :
    hasId d' productId = hasId d productId := by
  unfold hasId
  rw [h]

theorem findById_ok_some (ps : List Product) (productId : String) (p : Product)
    (h : findById ps productId = .ok (some p)) :
    isObjectId productId = true ∧ ps.find? (fun d => hasId d productId) = some p ∧
      hasId p productId = true := by
  unfold findById at h
  by_cases hid : isObjectId productId = true
  · rw [if_pos hid] at h
    have hfind : ps.find? (fun d => hasId d productId) = some p := by
      injection h
    exact ⟨hid, hfind, List.find?_some (p := fun d => hasId d productId) hfind⟩
  · rw [if_neg hid] at h
    cases h

theorem findById_of_find (ps : List Product) (productId : String)
    (hid : isObjectId productId = true) :
    findById ps productId = .ok (ps.find? (fun d => hasId d productId)) := by
  unfold findById
  rw [if_pos hid]

theorem findById_malformed (ps : List Product) (productId : String)
    (hid : isObjectId productId = false) : findById ps productId = .error "CastError" := by
  unfold findById
  simp [hid]

theorem find_saveDoc (ps : List Product) (productId : String) (p updated : Product)
    (h : ps.find? (fun d => hasId d productId) = some p)
    (hid : hasId updated productId = true) :
    (saveDoc ps productId updated).find? (fun d => hasId d productId) = some updated := by
  induction ps with
  | nil => simp at h
  | cons d rest ih =>
    by_cases hd : hasId d productId = true
    · simp [saveDoc, hd, hid]
    · have hrest : rest.find? (fun d => hasId d productId) = some p := by
        simpa [List.find?_cons, hd] using h
      simp [saveDoc, hd, List.find?_cons, ih hrest]

theorem map_docId_saveDoc (ps : List Product) (productId : String) (p updated : Product)
    (h : ps.find? (fun d => hasId d productId) = some p) (hid : docId updated = docId p) :
    (saveDoc ps productId updated).map docId = ps.map docId := by
  induction ps with
  | nil => simp at h
  | cons d rest ih =>
    by_cases hd : hasId d productId = true
    · have hp : d = p := by
        simpa [List.find?_cons, hd] using h
      subst hp
      simp [saveDoc, hd, hid]
    · have hrest : rest.find? (fun d => hasId d productId) = some p := by
        simpa [List.find?_cons, hd] using h
      simp [saveDoc, hd, ih hrest]

theorem removeFirst_of_absent (ps : List Product) (productId : String)
    (h : ∀ d ∈ ps, hasId d productId = false) :
    removeFirst ps productId = (none, ps) := by
  induction ps with
  | nil => rfl
  | cons d rest ih =>
    have hd : hasId d productId = false := h d (List.mem_cons_self _ _)
    have hrest := ih (fun x hx => h x (List.mem_cons_of_mem _ hx))
    simp [removeFirst, hd, hrest]

theorem removeFirst_of_present (ps : List Product) (productId : String)
    (hnodup : (ps.map docId).Nodup) (h : ∃ d ∈ ps, hasId d productId = true) :
    (∃ d, (removeFirst ps productId).1 = some d) ∧
      (removeFirst ps productId).2 = ps.filter (fun d => !hasId d productId) := by
  induction ps with
  | nil => simp at h
  | cons d rest ih =>
    rw [List.map_cons, List.nodup_cons] at hnodup
    by_cases hd : hasId d productId = true
    · refine ⟨⟨d, by simp [removeFirst, hd]⟩, ?_⟩
      have hnone : ∀ x ∈ rest, hasId x productId = false := by
        intro x hx
        by_contra hx'
        have hxt : hasId x productId = true := by simpa using hx'
        apply hnodup.1
        rw [docId_eq_of_hasId d productId hd, ← docId_eq_of_hasId x productId hxt]
        exact List.mem_map_of_mem docId hx
      have hfilter : rest.filter (fun d => !hasId d productId) = rest := by
        rw [List.filter_eq_self]
        intro x hx
        simp [hnone x hx]
      simp [removeFirst, hd, hfilter]
    · have hrest : ∃ x ∈ rest, hasId x productId = true := by
        obtain ⟨x, hx, hxt⟩ := h
        rcases List.mem_cons.mp hx with rfl | hx
        · exact absurd hxt hd
        · exact ⟨x, hx, hxt⟩
      obtain ⟨⟨x, hx⟩, hrem⟩ := ih hnodup.2 hrest
      have hdf : hasId d productId = false := by simpa using hd
      refine ⟨⟨x, by simp [removeFirst, hdf, hx]⟩, ?_⟩
      simp [removeFirst, hdf, hrem]

/-! ## The PATCH loop -/

theorem assignField_id (lib : Library) (draft : Product × Bool) (field : String)
    (value : JsVal) : (assignField lib draft field value).1._id = draft.1._id := by
  unfold assignField
  split_ifs <;> (try split) <;> rfl

theorem foldl_assignField_id (lib : Library) (body : JsObject) (ks : List String) :
    ∀ draft : Product × Bool,
      (ks.foldl (fun dr field => assignField lib dr field (getField body field)) draft).1._id
        = draft.1._id := by
  induction ks with
  | nil => intro draft; rfl
  | cons k rest ih =>
    intro draft
    simp only [List.foldl_cons]
    rw [ih, assignField_id]

theorem applyPartialUpdate_id (lib : Library) (p : Product) (body : JsObject) :
    (applyPartialUpdate lib p body).1._id = p._id := by
  unfold applyPartialUpdate
  exact foldl_assignField_id lib body _ (p, false)

/-! ## State after an update -/

theorem putProduct_products (lib : Library) (s : ServerState) (productId : String)
    (body : JsObject) :
    (putProduct lib s productId body).2 = s ∨
      ∃ p updated, s.products.find? (fun d => hasId d productId) = some p ∧
        updated._id = p._id ∧
        (putProduct lib s productId body).2
          = ⟨saveDoc s.products productId updated, s.uploads⟩ := by
  unfold putProduct
  cases hfind : findById s.products productId with
  | error e => left; rfl
  | ok found =>
    cases found with
    | none => left; rfl
    | some p =>
      have hp := (findById_ok_some _ _ _ hfind).2.1
      simp only []
      split
      · right
        exact ⟨p, _, hp, (by rfl), rfl⟩
      · left; rfl

theorem patchProduct_products (lib : Library) (s : ServerState) (productId : String)
    (body : JsObject) :
    (patchProduct lib s productId body).2 = s ∨
      ∃ p updated, s.products.find? (fun d => hasId d productId) = some p ∧
        updated._id = p._id ∧
        (patchProduct lib s productId body).2
          = ⟨saveDoc s.products productId updated, s.uploads⟩ := by
  unfold patchProduct
  cases hfind : findById s.products productId with
  | error e => left; rfl
  | ok found =>
    cases found with
    | none => left; rfl
    | some p =>
      have hp := (findById_ok_some _ _ _ hfind).2.1
      simp only []
      split
      · left; rfl
      · right
        exact ⟨p, _, hp, applyPartialUpdate_id lib p body, rfl⟩
/-! ## Full update (PUT) -/

theorem findById_saveDoc (ps : List Product) (productId : String) (p updated : Product)
    (hfound : findById ps productId = .ok (some p)) (hid : updated._id = p._id) :
    findById (saveDoc ps productId updated) productId = .ok (some updated) := by
  obtain ⟨hwf, hfind, hpid⟩ := findById_ok_some _ _ _ hfound
  rw [findById_of_find _ _ hwf]
  congr 1
  apply find_saveDoc _ _ p _ hfind
  rw [hasId_of_docId_eq p updated productId hid]
  exact hpid

/-- C1, as the code has it. For an existing product, when the schema casts accept every
truthy value among the request's name, description, price and imagePath, the full update
answers 200 and saves, in place of the record, a record in which each of the four is the
cast of the request's value when that value is truthy and the previous value otherwise;
when a cast rejects one of them the update answers 500 and nothing changes. In particular
an empty-string price leaves the price unchanged, and a non-empty price text that the cast
accepts replaces it with the cast value. -/
theorem put_casts_truthy_fields (lib : Library) (s : ServerState) (productId : String)
    (body : JsObject) (p : Product) (hfound : findById s.products productId = .ok (some p)) :
    (∀ (name description : Field String) (price : Field ℚ) (imagePath : Field String),
      (if truthy (getField body "name") then lib.castString (getField body "name")
        else some p.name) = some name →
      (if truthy (getField body "description")
        then lib.castString (getField body "description")
        else some p.description) = some description →
      (if truthy (getField body "price") then lib.castNumber (getField body "price")
        else some p.price) = some price →
      (if truthy (getField body "imagePath")
        then lib.castString (getField body "imagePath")
        else some p.imagePath) = some imagePath →
      (putProduct lib s productId body).1.status = 200 ∧
      (putProduct lib s productId body).2.products
        = saveDoc s.products productId
            ⟨p._id, name, description, price, imagePath, p.__v⟩ ∧
      findById (putProduct lib s productId body).2.products productId
        = .ok (some ⟨p._id, name, description, price, imagePath, p.__v⟩) ∧
      (putProduct lib s productId body).2.uploads = s.uploads) ∧
    (((if truthy (getField body "name") then lib.castString (getField body "name")
          else some p.name) = none ∨
        (if truthy (getField body "description")
          then lib.castString (getField body "description")
          else some p.description) = none ∨
        (if truthy (getField body "price") then lib.castNumber (getField body "price")
          else some p.price) = none ∨
        (if truthy (getField body "imagePath")
          then lib.castString (getField body "imagePath")
          else some p.imagePath) = none) →
      (putProduct lib s productId body).1.status = 500 ∧
      (putProduct lib s productId body).2 = s) ∧
    (getField body "price" = .str "" →
      ∀ q, findById (putProduct lib s productId body).2.products productId = .ok (some q) →
        q.price = p.price) ∧
    (∀ (x : String) (v : Field ℚ) (q : Product), x ≠ "" → getField body "price" = .str x →
      lib.castNumber (.str x) = some v →
      (putProduct lib s productId body).1.status = 200 →
      findById (putProduct lib s productId body).2.products productId = .ok (some q) →
      q.price = v) := by
  have hok : ∀ (name description : Field String) (price : Field ℚ)
      (imagePath : Field String),
      (if truthy (getField body "name") then lib.castString (getField body "name")
        else some p.name) = some name →
      (if truthy (getField body "description")
        then lib.castString (getField body "description")
        else some p.description) = some description →
      (if truthy (getField body "price") then lib.castNumber (getField body "price")
        else some p.price) = some price →
      (if truthy (getField body "imagePath")
        then lib.castString (getField body "imagePath")
        else some p.imagePath) = some imagePath →
      putProduct lib s productId body
        = (updatedResponse ⟨p._id, name, description, price, imagePath, p.__v⟩,
            ⟨saveDoc s.products productId
              ⟨p._id, name, description, price, imagePath, p.__v⟩, s.uploads⟩) := by
    intro name description price imagePath h1 h2 h3 h4
    simp only [putProduct, hfound, h1, h2, h3, h4]
  have hfail : ((if truthy (getField body "name") then lib.castString (getField body "name")
          else some p.name) = none ∨
        (if truthy (getField body "description")
          then lib.castString (getField body "description")
          else some p.description) = none ∨
        (if truthy (getField body "price") then lib.castNumber (getField body "price")
          else some p.price) = none ∨
        (if truthy (getField body "imagePath")
          then lib.castString (getField body "imagePath")
          else some p.imagePath) = none) →
      putProduct lib s productId body = (serverError, s) := by
    intro h
    simp only [putProduct, hfound]
    rcases h with h | h | h | h <;> rw [h] <;> split <;> first | rfl | simp_all
  have hsplit : (∃ (name description : Field String) (price : Field ℚ)
        (imagePath : Field String),
        (if truthy (getField body "name") then lib.castString (getField body "name")
          else some p.name) = some name ∧
        (if truthy (getField body "description")
          then lib.castString (getField body "description")
          else some p.description) = some description ∧
        (if truthy (getField body "price") then lib.castNumber (getField body "price")
          else some p.price) = some price ∧
        (if truthy (getField body "imagePath")
          then lib.castString (getField body "imagePath")
          else some p.imagePath) = some imagePath) ∨
      ((if truthy (getField body "name") then lib.castString (getField body "name")
          else some p.name) = none ∨
        (if truthy (getField body "description")
          then lib.castString (getField body "description")
          else some p.description) = none ∨
        (if truthy (getField body "price") then lib.castNumber (getField body "price")
          else some p.price) = none ∨
        (if truthy (getField body "imagePath")
          then lib.castString (getField body "imagePath")
          else some p.imagePath) = none) := by
    cases h1 : (if truthy (getField body "name") then lib.castString (getField body "name")
        else some p.name) with
    | none => exact Or.inr (Or.inl rfl)
    | some name =>
      cases h2 : (if truthy (getField body "description")
          then lib.castString (getField body "description")
          else some p.description) with
      | none => exact Or.inr (Or.inr (Or.inl rfl))
      | some description =>
        cases h3 : (if truthy (getField body "price")
            then lib.castNumber (getField body "price") else some p.price) with
        | none => exact Or.inr (Or.inr (Or.inr (Or.inl rfl)))
        | some price =>
          cases h4 : (if truthy (getField body "imagePath")
              then lib.castString (getField body "imagePath")
              else some p.imagePath) with
          | none => exact Or.inr (Or.inr (Or.inr (Or.inr rfl)))
          | some imagePath => exact Or.inl ⟨name, description, price, imagePath, rfl, rfl, rfl, rfl⟩
  refine ⟨?_, ?_, ?_, ?_⟩
  · intro name description price imagePath h1 h2 h3 h4
    rw [hok name description price imagePath h1 h2 h3 h4]
    exact ⟨rfl, rfl, findById_saveDoc _ _ p _ hfound rfl, rfl⟩
  · intro h
    rw [hfail h]
    exact ⟨rfl, rfl⟩
  · intro hprice q hq
    rcases hsplit with ⟨name, description, price, imagePath, h1, h2, h3, h4⟩ | h
    · rw [hok name description price imagePath h1 h2 h3 h4] at hq
      have hsaved := findById_saveDoc s.products productId p
        ⟨p._id, name, description, price, imagePath, p.__v⟩ hfound rfl
      dsimp only at hq
      rw [hsaved] at hq
      have hq' : q = ⟨p._id, name, description, price, imagePath, p.__v⟩ := by
        injection hq with hq
        injection hq with hq
        exact hq.symm
      rw [hprice] at h3
      simp [truthy] at h3
      rw [hq']
      exact h3.symm
    · rw [hfail h, hfound] at hq
      injection hq with hq
      injection hq with hq
      rw [hq]
  · intro x v q hx hprice hcast hstatus hq
    rcases hsplit with ⟨name, description, price, imagePath, h1, h2, h3, h4⟩ | h
    · rw [hok name description price imagePath h1 h2 h3 h4] at hq
      have hsaved := findById_saveDoc s.products productId p
        ⟨p._id, name, description, price, imagePath, p.__v⟩ hfound rfl
      dsimp only at hq
      rw [hsaved] at hq
      have hq' : q = ⟨p._id, name, description, price, imagePath, p.__v⟩ := by
        injection hq with hq
        injection hq with hq
        exact hq.symm
      rw [hprice] at h3
      simp [truthy, hx, hcast] at h3
      rw [hq']
      exact h3.symm
    · rw [hfail h] at hstatus
      simp [serverError, jsonMessage] at hstatus

/-- Witness for C1: a full update of the sample product with a new name and an
empty-string price saves the name and keeps the price. -/
theorem put_casts_truthy_fields_witness :
    findById sampleState.products "65a1b2c3d4e5f60718293a4b" = .ok (some sampleProduct) ∧
    (putProduct exampleLibrary sampleState "65a1b2c3d4e5f60718293a4b"
      [("name", .str "Lantern"), ("price", .str "")]).1.status = 200 ∧
    (putProduct exampleLibrary sampleState "65a1b2c3d4e5f60718293a4b"
      [("name", .str "Lantern"), ("price", .str "")]).2.products
      = [⟨"65a1b2c3d4e5f60718293a4b", .val "Lantern", .val "Desk lamp", .val 20,
          .val "1700000000000.jpg", .val 0⟩, otherProduct] :=
  ⟨rfl,
    ((put_casts_truthy_fields exampleLibrary sampleState "65a1b2c3d4e5f60718293a4b"
      [("name", .str "Lantern"), ("price", .str "")] sampleProduct rfl).1
      (.val "Lantern") (.val "Desk lamp") (.val 20) (.val "1700000000000.jpg")
      (by decide) (by decide) (by decide) (by decide)).1,
    by decide⟩

/-- C1 as stated fails: a full update of the sample product with price `abc` answers 500
and leaves the state as it was, the price not replaced; with price text `30` it answers
200 and the saved price is the number 30, not the request's text. -/
theorem put_price_is_cast :
    findById sampleState.products "65a1b2c3d4e5f60718293a4b" = .ok (some sampleProduct) ∧
    (putProduct exampleLibrary sampleState "65a1b2c3d4e5f60718293a4b"
      [("price", .str "abc")]).1.status = 500 ∧
    (putProduct exampleLibrary sampleState "65a1b2c3d4e5f60718293a4b"
      [("price", .str "abc")]).2 = sampleState ∧
    (putProduct exampleLibrary sampleState "65a1b2c3d4e5f60718293a4b"
      [("price", .str "30")]).1.status = 200 ∧
    (putProduct exampleLibrary sampleState "65a1b2c3d4e5f60718293a4b"
      [("price", .str "30")]).2.products
      = [⟨"65a1b2c3d4e5f60718293a4b", .val "Lamp", .val "Desk lamp", .val 30,
          .val "1700000000000.jpg", .val 0⟩, otherProduct] ∧
    numberValue (.val 30) ≠ JsVal.str "30" :=
  ⟨rfl, by decide, by decide, by decide, by decide, by intro h; cases h⟩

/-! ## Partial update (PATCH) -/

theorem assignField_failed (lib : Library) (draft : Product × Bool) (field : String)
    (value : JsVal) (h : draft.2 = true) : (assignField lib draft field value).2 = true := by
  unfold assignField
  split_ifs <;> (try split) <;> simp [h]

theorem foldl_assignField_failed (lib : Library) (body : JsObject) (ks : List String) :
    ∀ draft : Product × Bool, draft.2 = true →
      (ks.foldl (fun dr field => assignField lib dr field (getField body field)) draft).2
        = true := by
  induction ks with
  | nil => intro draft h; exact h
  | cons k rest ih =>
    intro draft h
    simp only [List.foldl_cons]
    exact ih _ (assignField_failed lib draft k _ h)

theorem foldl_assignField_fail (lib : Library) (body : JsObject) (ks : List String) :
    ∀ draft : Product × Bool,
      (("name" ∈ ks ∧ lib.castString (getField body "name") = none) ∨
        ("description" ∈ ks ∧ lib.castString (getField body "description") = none) ∨
        ("price" ∈ ks ∧ lib.castNumber (getField body "price") = none) ∨
        ("imagePath" ∈ ks ∧ lib.castString (getField body "imagePath") = none)) →
      (ks.foldl (fun dr field => assignField lib dr field (getField body field)) draft).2
        = true := by
  induction ks with
  | nil => intro draft h; simp at h
  | cons k rest ih =>
    intro draft h
    simp only [List.foldl_cons]
    rcases h with ⟨hk, hc⟩ | ⟨hk, hc⟩ | ⟨hk, hc⟩ | ⟨hk, hc⟩
    · rcases List.mem_cons.mp hk with hk | hk
      · apply foldl_assignField_failed
        subst hk
        simp [assignField, hc]
      · exact ih _ (Or.inl ⟨hk, hc⟩)
    · rcases List.mem_cons.mp hk with hk | hk
      · apply foldl_assignField_failed
        subst hk
        simp [assignField, hc]
      · exact ih _ (Or.inr (Or.inl ⟨hk, hc⟩))
    · rcases List.mem_cons.mp hk with hk | hk
      · apply foldl_assignField_failed
        subst hk
        simp [assignField, hc]
      · exact ih _ (Or.inr (Or.inr (Or.inl ⟨hk, hc⟩)))
    · rcases List.mem_cons.mp hk with hk | hk
      · apply foldl_assignField_failed
        subst hk
        simp [assignField, hc]
      · exact ih _ (Or.inr (Or.inr (Or.inr ⟨hk, hc⟩)))

theorem foldl_assignField_ok (lib : Library) (body : JsObject) (ks : List String) :
    ∀ (d : Product) (name description : Field String) (price : Field ℚ)
      (imagePath : Field String),
      (∀ k ∈ ks, k = "name" ∨ k = "description" ∨ k = "price" ∨ k = "imagePath" ∨
        (k ≠ "_id" ∧ k ≠ "__v" ∧ lib.breaksSave k (getField body k) = false)) →
      (if "name" ∈ ks then lib.castString (getField body "name") else some d.name)
        = some name →
      (if "description" ∈ ks then lib.castString (getField body "description")
        else some d.description) = some description →
      (if "price" ∈ ks then lib.castNumber (getField body "price") else some d.price)
        = some price →
      (if "imagePath" ∈ ks then lib.castString (getField body "imagePath")
        else some d.imagePath) = some imagePath →
      ks.foldl (fun dr field => assignField lib dr field (getField body field)) (d, false)
        = (⟨d._id, name, description, price, imagePath, d.__v⟩, false) := by
  induction ks with
  | nil =>
    intro d name description price imagePath _ h1 h2 h3 h4
    simp only [List.not_mem_nil, if_false, Option.some.injEq] at h1 h2 h3 h4
    subst h1 h2 h3 h4
    rfl
  | cons k rest ih =>
    intro d name description price imagePath hkeys h1 h2 h3 h4
    have hrest : ∀ k ∈ rest, k = "name" ∨ k = "description" ∨ k = "price" ∨
        k = "imagePath" ∨
        (k ≠ "_id" ∧ k ≠ "__v" ∧ lib.breaksSave k (getField body k) = false) :=
      fun x hx => hkeys x (List.mem_cons_of_mem _ hx)
    simp only [List.foldl_cons]
    by_cases hn : k = "name"
    · subst hn
      simp only [List.mem_cons, true_or, if_true] at h1
      have hstep : assignField lib (d, false) "name" (getField body "name")
          = ({ d with name := name }, false) := by
        simp [assignField, h1]
      rw [hstep]
      have := ih { d with name := name } name description price imagePath hrest
        (by split_ifs <;> first | exact h1 | rfl)
        (by simpa using h2) (by simpa using h3) (by simpa using h4)
      simpa using this
    · by_cases hd : k = "description"
      · subst hd
        simp only [List.mem_cons, true_or, if_true] at h2
        have hstep : assignField lib (d, false) "description" (getField body "description")
            = ({ d with description := description }, false) := by
          simp [assignField, h2]
        rw [hstep]
        have := ih { d with description := description } name description price imagePath
          hrest (by simpa using h1)
          (by split_ifs <;> first | exact h2 | rfl)
          (by simpa using h3) (by simpa using h4)
        simpa using this
      · by_cases hp : k = "price"
        · subst hp
          simp only [List.mem_cons, true_or, if_true] at h3
          have hstep : assignField lib (d, false) "price" (getField body "price")
              = ({ d with price := price }, false) := by
            simp [assignField, h3]
          rw [hstep]
          have := ih { d with price := price } name description price imagePath
            hrest (by simpa using h1) (by simpa using h2)
            (by split_ifs <;> first | exact h3 | rfl)
            (by simpa using h4)
          simpa using this
        · by_cases hi : k = "imagePath"
          · subst hi
            simp only [List.mem_cons, true_or, if_true] at h4
            have hstep : assignField lib (d, false) "imagePath" (getField body "imagePath")
                = ({ d with imagePath := imagePath }, false) := by
              simp [assignField, h4]
            rw [hstep]
            have := ih { d with imagePath := imagePath } name description price imagePath
              hrest (by simpa using h1) (by simpa using h2) (by simpa using h3)
              (by split_ifs <;> first | exact h4 | rfl)
            simpa using this
          · have hother : k ≠ "_id" ∧ k ≠ "__v" ∧
                lib.breaksSave k (getField body k) = false := by
              rcases hkeys k (List.mem_cons_self _ _) with h | h | h | h | h
              · exact absurd h hn
              · exact absurd h hd
              · exact absurd h hp
              · exact absurd h hi
              · exact h
            have hstep : assignField lib (d, false) k (getField body k) = (d, false) := by
              simp [assignField, hn, hd, hp, hi, hother.1, hother.2.1, hother.2.2]
            rw [hstep]
            have hn' : ¬ "name" = k := fun e => hn e.symm
            have hd' : ¬ "description" = k := fun e => hd e.symm
            have hp' : ¬ "price" = k := fun e => hp e.symm
            have hi' : ¬ "imagePath" = k := fun e => hi e.symm
            exact ih d name description price imagePath hrest
              (by simpa [hn'] using h1) (by simpa [hd'] using h2)
              (by simpa [hp'] using h3) (by simpa [hi'] using h4)

/-- C2, as the code has it. For an existing product and a partial-update body none of
whose keys outside name, description, price and imagePath is `_id`, `__v` or a key whose
assignment breaks `save()`: when the schema casts accept the body's values for those of
the four keys that are present, the update answers 200 and saves, in place of the record,
a record that holds for each of the four keys present in the body the cast of the body's
value and keeps every other path, keys outside the schema not being stored; when a cast
rejects one of these values the update answers 500 and nothing changes. -/
theorem patch_sets_schema_fields (lib : Library) (s : ServerState) (productId : String)
    (body : JsObject) (p : Product) (hfound : findById s.products productId = .ok (some p))
    (hkeys : ∀ k ∈ body.map Prod.fst,
      k = "name" ∨ k = "description" ∨ k = "price" ∨ k = "imagePath" ∨
        (k ≠ "_id" ∧ k ≠ "__v" ∧ lib.breaksSave k (getField body k) = false)) :
    (∀ (name description : Field String) (price : Field ℚ) (imagePath : Field String),
      (if "name" ∈ body.map Prod.fst then lib.castString (getField body "name")
        else some p.name) = some name →
      (if "description" ∈ body.map Prod.fst
        then lib.castString (getField body "description")
        else some p.description) = some description →
      (if "price" ∈ body.map Prod.fst then lib.castNumber (getField body "price")
        else some p.price) = some price →
      (if "imagePath" ∈ body.map Prod.fst
        then lib.castString (getField body "imagePath")
        else some p.imagePath) = some imagePath →
      (patchProduct lib s productId body).1.status = 200 ∧
      (patchProduct lib s productId body).2.products
        = saveDoc s.products productId
            ⟨p._id, name, description, price, imagePath, p.__v⟩ ∧
      findById (patchProduct lib s productId body).2.products productId
        = .ok (some ⟨p._id, name, description, price, imagePath, p.__v⟩) ∧
      (patchProduct lib s productId body).2.uploads = s.uploads) ∧
    ((("name" ∈ body.map Prod.fst ∧ lib.castString (getField body "name") = none) ∨
        ("description" ∈ body.map Prod.fst ∧
          lib.castString (getField body "description") = none) ∨
        ("price" ∈ body.map Prod.fst ∧ lib.castNumber (getField body "price") = none) ∨
        ("imagePath" ∈ body.map Prod.fst ∧
          lib.castString (getField body "imagePath") = none)) →
      (patchProduct lib s productId body).1.status = 500 ∧
      (patchProduct lib s productId body).2 = s) := by
  constructor
  · intro name description price imagePath h1 h2 h3 h4
    have hfold : applyPartialUpdate lib p body
        = (⟨p._id, name, description, price, imagePath, p.__v⟩, false) := by
      unfold applyPartialUpdate
      exact foldl_assignField_ok lib body _ p name description price imagePath hkeys
        h1 h2 h3 h4
    have hpatch : patchProduct lib s productId body
        = (updatedResponse ⟨p._id, name, description, price, imagePath, p.__v⟩,
            ⟨saveDoc s.products productId
              ⟨p._id, name, description, price, imagePath, p.__v⟩, s.uploads⟩) := by
      simp [patchProduct, hfound, hfold]
    rw [hpatch]
    exact ⟨rfl, rfl, findById_saveDoc _ _ p _ hfound rfl, rfl⟩
  · intro h
    have hfold : (applyPartialUpdate lib p body).2 = true := by
      unfold applyPartialUpdate
      exact foldl_assignField_fail lib body _ (p, false) h
    have hpatch : patchProduct lib s productId body = (serverError, s) := by
      simp [patchProduct, hfound, hfold]
    rw [hpatch]
    exact ⟨rfl, rfl⟩

/-- Witness for C2: a partial update of the sample product with a new price, given as
text, and an unknown key saves the price as a number and nothing else. -/
theorem patch_sets_schema_fields_witness :
    findById sampleState.products "65a1b2c3d4e5f60718293a4b" = .ok (some sampleProduct) ∧
    (patchProduct exampleLibrary sampleState "65a1b2c3d4e5f60718293a4b"
      [("price", .str "30"), ("colour", .str "red")]).1.status = 200 ∧
    (patchProduct exampleLibrary sampleState "65a1b2c3d4e5f60718293a4b"
      [("price", .str "30"), ("colour", .str "red")]).2.products
      = [⟨"65a1b2c3d4e5f60718293a4b", .val "Lamp", .val "Desk lamp", .val 30,
          .val "1700000000000.jpg", .val 0⟩, otherProduct] :=
  ⟨rfl,
    ((patch_sets_schema_fields exampleLibrary sampleState "65a1b2c3d4e5f60718293a4b"
      [("price", .str "30"), ("colour", .str "red")] sampleProduct rfl (by decide)).1
      (.val "Lamp") (.val "Desk lamp") (.val 30) (.val "1700000000000.jpg")
      (by decide) (by decide) (by decide) (by decide)).1,
    by decide⟩

/-- C2 as stated fails: a partial update of the sample product with body
`{ colour: "red" }` answers 200 and leaves the state as it was, and the record's JSON form
has no `colour`; with body `{ save: "x" }` the update answers 500. -/
theorem patch_drops_unknown_key :
    findById sampleState.products "65a1b2c3d4e5f60718293a4b" = .ok (some sampleProduct) ∧
    (patchProduct exampleLibrary sampleState "65a1b2c3d4e5f60718293a4b"
      [("colour", .str "red")]).1.status = 200 ∧
    (patchProduct exampleLibrary sampleState "65a1b2c3d4e5f60718293a4b"
      [("colour", .str "red")]).2 = sampleState ∧
    getField (toObject sampleProduct) "colour" = .undefined ∧
    (patchProduct exampleLibrary sampleState "65a1b2c3d4e5f60718293a4b"
      [("save", .str "x")]).1.status = 500 :=
  ⟨rfl, by decide, by decide, rfl, by decide⟩

/-! ## Image Store lemmas -/

theorem readFile_writeFile_self (uploads : List (String × List Nat)) (name : String)
    (content : List Nat) : readFile (writeFile uploads name content) name = some content := by
  induction uploads with
  | nil => simp [writeFile, readFile]
  | cons f rest ih =>
    obtain ⟨n, c⟩ := f
    by_cases h : n = name
    · simp [writeFile, readFile, h]
    · simp [writeFile, readFile, h, ih]

/-! ## Create (POST) and list (GET) -/

/-- C4, as the code has it. A create request that carries a file stores the file in the
Image Store under the generated file name. When the schema casts accept the request's
name, description and price, it answers 201, and afterwards the list operation returns the
records that were there before, unchanged, followed by exactly one new record whose name,
description and price are the casts of the request's field values and whose imagePath is
that file name; when a cast rejects one of them it answers 500 and the collection is as
it was. -/
theorem create_with_file_response (extname : String → String) (lib : Library) (now : Nat)
    (newId : String) (s : ServerState) (req : CreateRequest) (file : UploadedFile)
    (hfile : req.file = some file) :
    readFile (createProduct extname lib now newId s req).2.uploads
        (storageFilename extname now file.originalname) = some file.content ∧
    (∀ (name description : Field String) (price : Field ℚ),
      lib.castString (getField req.body "name") = some name →
      lib.castString (getField req.body "description") = some description →
      lib.castNumber (getField req.body "price") = some price →
      (createProduct extname lib now newId s req).1.status = 201 ∧
      (createProduct extname lib now newId s req).2.products
        = s.products ++ [⟨newId, name, description, price,
            .val (storageFilename extname now file.originalname), .val 0⟩] ∧
      (listProducts (createProduct extname lib now newId s req).2).status = 200 ∧
      (listProducts (createProduct extname lib now newId s req).2).body
        = .json (.arr ((s.products ++ [(⟨newId, name, description, price,
            .val (storageFilename extname now file.originalname), .val 0⟩ : Product)]).map
              (fun p => JsVal.obj (toObject p))))) ∧
    ((lib.castString (getField req.body "name") = none ∨
        lib.castString (getField req.body "description") = none ∨
        lib.castNumber (getField req.body "price") = none) →
      (createProduct extname lib now newId s req).1.status = 500 ∧
      (createProduct extname lib now newId s req).2.products = s.products) := by
  refine ⟨?_, ?_, ?_⟩
  · unfold createProduct
    rw [hfile]
    dsimp only
    split <;> exact readFile_writeFile_self _ _ _
  · intro name description price h1 h2 h3
    have hcreate : createProduct extname lib now newId s req
        = (jsonMessage 201 "message" "Product uploaded successfully",
            ⟨s.products ++ [⟨newId, name, description, price,
                .val (storageFilename extname now file.originalname), .val 0⟩],
              writeFile s.uploads (storageFilename extname now file.originalname)
                file.content⟩) := by
      simp [createProduct, hfile, h1, h2, h3]
    rw [hcreate]
    exact ⟨rfl, rfl, rfl, rfl⟩
  · intro h
    unfold createProduct
    rw [hfile]
    dsimp only
    rcases h with h | h | h <;> rw [h] <;> split <;> first | exact ⟨rfl, rfl⟩ | simp_all

/-- Witness for C4: a create request with a file and price text `12`, on the sample
state, adds a record whose price is the number 12. -/
theorem create_with_file_response_witness :
    (createProduct (fun _ => ".jpg") exampleLibrary 1700000000002 "65a1b2c3d4e5f60718293a4d"
      sampleState
      ⟨[("name", .str "Vase"), ("description", .str "Blue vase"), ("price", .str "12")],
        some ⟨"vase.jpg", [1, 2, 3]⟩⟩).1.status = 201 ∧
    (createProduct (fun _ => ".jpg") exampleLibrary 1700000000002 "65a1b2c3d4e5f60718293a4d"
      sampleState
      ⟨[("name", .str "Vase"), ("description", .str "Blue vase"), ("price", .str "12")],
        some ⟨"vase.jpg", [1, 2, 3]⟩⟩).2.products
      = [sampleProduct, otherProduct,
          ⟨"65a1b2c3d4e5f60718293a4d", .val "Vase", .val "Blue vase", .val 12,
            .val "1700000000002.jpg", .val 0⟩] :=
  ⟨((create_with_file_response (fun _ => ".jpg") exampleLibrary 1700000000002
      "65a1b2c3d4e5f60718293a4d" sampleState
      ⟨[("name", .str "Vase"), ("description", .str "Blue vase"), ("price", .str "12")],
        some ⟨"vase.jpg", [1, 2, 3]⟩⟩ ⟨"vase.jpg", [1, 2, 3]⟩ rfl).2.1
      (.val "Vase") (.val "Blue vase") (.val 12) (by decide) (by decide) (by decide)).1,
    by decide⟩

/-- C4 as stated fails: a create request with a file and price `abc` answers 500, the
collection is as it was, and the uploaded file is in the Image Store. -/
theorem create_rejects_price :
    (createProduct (fun _ => ".jpg") exampleLibrary 1700000000002 "65a1b2c3d4e5f60718293a4d"
      sampleState
      ⟨[("name", .str "Vase"), ("description", .str "Blue vase"), ("price", .str "abc")],
        some ⟨"vase.jpg", [1, 2, 3]⟩⟩).1.status = 500 ∧
    (createProduct (fun _ => ".jpg") exampleLibrary 1700000000002 "65a1b2c3d4e5f60718293a4d"
      sampleState
      ⟨[("name", .str "Vase"), ("description", .str "Blue vase"), ("price", .str "abc")],
        some ⟨"vase.jpg", [1, 2, 3]⟩⟩).2.products = sampleState.products ∧
    readFile (createProduct (fun _ => ".jpg") exampleLibrary 1700000000002
      "65a1b2c3d4e5f60718293a4d" sampleState
      ⟨[("name", .str "Vase"), ("description", .str "Blue vase"), ("price", .str "abc")],
        some ⟨"vase.jpg", [1, 2, 3]⟩⟩).2.uploads "1700000000002.jpg" = some [1, 2, 3] := by
  decide
/-! ## Identifiers under update -/

/-- C3. A product's identifier is immutable: for every full update and every partial
update, a body with an `_id` key included, the identifiers in the collection are the same
after the request as before, and the record the request addressed is still found under
its identifier, with that identifier. -/
theorem update_keeps_identifier (lib : Library) (s : ServerState) (productId : String)
    (body : JsObject) :
    (putProduct lib s productId body).2.products.map docId = s.products.map docId ∧
    (patchProduct lib s productId body).2.products.map docId = s.products.map docId ∧
    (∀ p, findById s.products productId = .ok (some p) →
      (∃ q, findById (putProduct lib s productId body).2.products productId = .ok (some q) ∧
        docId q = docId p) ∧
      (∃ q, findById (patchProduct lib s productId body).2.products productId
          = .ok (some q) ∧
        docId q = docId p)) := by
  refine ⟨?_, ?_, ?_⟩
  · rcases putProduct_products lib s productId body with h | ⟨p, updated, hp, hid, h⟩
    · rw [h]
    · rw [h]
      exact map_docId_saveDoc _ _ p updated hp hid
  · rcases patchProduct_products lib s productId body with h | ⟨p, updated, hp, hid, h⟩
    · rw [h]
    · rw [h]
      exact map_docId_saveDoc _ _ p updated hp hid
  · intro p hfound
    obtain ⟨hwf, hfind, hpid⟩ := findById_ok_some _ _ _ hfound
    constructor
    · rcases putProduct_products lib s productId body with h | ⟨p', updated, hp, hid, h⟩
      · rw [h]
        exact ⟨p, hfound, rfl⟩
      · rw [h]
        have hpp : p' = p := by
          rw [hfind] at hp
          injection hp with hp
          exact hp.symm
        subst hpp
        refine ⟨updated, ?_, hid⟩
        rw [findById_of_find _ _ hwf]
        congr 1
        apply find_saveDoc _ _ p' _ hfind
        rw [hasId_of_docId_eq p' updated productId hid]
        exact hpid
    · rcases patchProduct_products lib s productId body with h | ⟨p', updated, hp, hid, h⟩
      · rw [h]
        exact ⟨p, hfound, rfl⟩
      · rw [h]
        have hpp : p' = p := by
          rw [hfind] at hp
          injection hp with hp
          exact hp.symm
        subst hpp
        refine ⟨updated, ?_, hid⟩
        rw [findById_of_find _ _ hwf]
        congr 1
        apply find_saveDoc _ _ p' _ hfind
        rw [hasId_of_docId_eq p' updated productId hid]
        exact hpid

/-- Witness for C3: partial updates of the sample product whose body names another
record's identifier, or a text that is no identifier, as `_id`, and a full update. None
changes the identifiers of the collection; the two partial updates answer 500. -/
theorem update_keeps_identifier_witness :
    (patchProduct exampleLibrary sampleState "65a1b2c3d4e5f60718293a4b"
      [("_id", .str "65a1b2c3d4e5f60718293a4c")]).2.products.map docId
        = sampleState.products.map docId ∧
    (patchProduct exampleLibrary sampleState "65a1b2c3d4e5f60718293a4b"
      [("_id", .str "65a1b2c3d4e5f60718293a4c")]).1.status = 500 ∧
    (patchProduct exampleLibrary sampleState "65a1b2c3d4e5f60718293a4b"
      [("_id", .str "c")]).1.status = 500 ∧
    (putProduct exampleLibrary sampleState "65a1b2c3d4e5f60718293a4b"
      [("name", .str "Lantern")]).2.products.map docId
        = ["65a1b2c3d4e5f60718293a4b", "65a1b2c3d4e5f60718293a4c"] :=
  ⟨(update_keeps_identifier exampleLibrary sampleState "65a1b2c3d4e5f60718293a4b"
      [("_id", .str "65a1b2c3d4e5f60718293a4c")]).2.1,
    by decide, by decide,
    (update_keeps_identifier exampleLibrary sampleState "65a1b2c3d4e5f60718293a4b"
      [("name", .str "Lantern")]).1⟩

/-! ## Create without a file -/

/-- C5. A create request that carries no file answers 400, whatever its text fields are,
and leaves the state (the product collection included) as it was. -/
theorem create_without_file_rejected (extname : String → String) (lib : Library) (now : Nat)
    (newId : String) (s : ServerState) (req : CreateRequest) (hfile : req.file = none) :
    (createProduct extname lib now newId s req).1.status = 400 ∧
    (createProduct extname lib now newId s req).2.products = s.products ∧
    (createProduct extname lib now newId s req).2 = s := by
  simp [createProduct, hfile, jsonMessage]

/-- Witness for C5: a create request without a file, on the sample state. -/
theorem create_without_file_rejected_witness :
    (createProduct (fun _ => ".jpg") exampleLibrary 1700000000002 "65a1b2c3d4e5f60718293a4d"
      sampleState ⟨[("name", .str "Vase"), ("price", .str "12")], none⟩).1.status = 400 ∧
    (createProduct (fun _ => ".jpg") exampleLibrary 1700000000002 "65a1b2c3d4e5f60718293a4d"
      sampleState ⟨[("name", .str "Vase"), ("price", .str "12")], none⟩).2.products
        = sampleState.products :=
  ⟨(create_without_file_rejected (fun _ => ".jpg") exampleLibrary 1700000000002
      "65a1b2c3d4e5f60718293a4d" sampleState
      ⟨[("name", .str "Vase"), ("price", .str "12")], none⟩ rfl).1,
    (create_without_file_rejected (fun _ => ".jpg") exampleLibrary 1700000000002
      "65a1b2c3d4e5f60718293a4d" sampleState
      ⟨[("name", .str "Vase"), ("price", .str "12")], none⟩ rfl).2.1⟩

/-! ## Unknown identifiers and delete -/

/-- C7, as the code has it. For a well-formed identifier that no record of the collection
has, full update, partial update and delete each answer 404; for a route parameter that is
not a well-formed identifier each answers 500. In both cases the product collection and
the Image Store are left as they were, whatever the request body is. -/
theorem unknown_identifier_response (lib : Library) (s : ServerState) (productId : String)
    (body : JsObject) :
    (isObjectId productId = true → (∀ d ∈ s.products, hasId d productId = false) →
      ((putProduct lib s productId body).1.status = 404 ∧
        (putProduct lib s productId body).2 = s) ∧
      ((patchProduct lib s productId body).1.status = 404 ∧
        (patchProduct lib s productId body).2 = s) ∧
      ((deleteProduct s productId).1.status = 404 ∧ (deleteProduct s productId).2 = s)) ∧
    (isObjectId productId = false →
      ((putProduct lib s productId body).1.status = 500 ∧
        (putProduct lib s productId body).2 = s) ∧
      ((patchProduct lib s productId body).1.status = 500 ∧
        (patchProduct lib s productId body).2 = s) ∧
      ((deleteProduct s productId).1.status = 500 ∧ (deleteProduct s productId).2 = s)) := by
  constructor
  · intro hwf habsent
    have hnone : findById s.products productId = .ok none := by
      rw [findById_of_find _ _ hwf]
      congr 1
      rw [List.find?_eq_none]
      intro d hd
      simp [habsent d hd]
    have hdel : findOneAndDelete s.products productId = .ok (none, s.products) := by
      unfold findOneAndDelete
      rw [if_pos hwf, removeFirst_of_absent _ _ habsent]
    refine ⟨?_, ?_, ?_⟩
    · simp [putProduct, hnone, jsonMessage]
    · simp [patchProduct, hnone, jsonMessage]
    · simp [deleteProduct, hdel, jsonMessage]
  · intro hwf
    have herr := findById_malformed s.products productId hwf
    have hdel : findOneAndDelete s.products productId = .error "CastError" := by
      unfold findOneAndDelete
      simp [hwf]
    refine ⟨?_, ?_, ?_⟩
    · simp [putProduct, herr, serverError, jsonMessage]
    · simp [patchProduct, herr, serverError, jsonMessage]
    · simp [deleteProduct, hdel, serverError, jsonMessage]

/-- Witness for C7: a well-formed identifier that no record of the sample state has. -/
theorem unknown_identifier_response_witness :
    isObjectId "65a1b2c3d4e5f60718293aff" = true ∧
    (∀ d ∈ sampleState.products, hasId d "65a1b2c3d4e5f60718293aff" = false) ∧
    (putProduct exampleLibrary sampleState "65a1b2c3d4e5f60718293aff"
      [("name", .str "x")]).1.status = 404 ∧
    (deleteProduct sampleState "65a1b2c3d4e5f60718293aff").1.status = 404 ∧
    (deleteProduct sampleState "65a1b2c3d4e5f60718293aff").2 = sampleState :=
  ⟨by decide, by decide,
    ((unknown_identifier_response exampleLibrary sampleState "65a1b2c3d4e5f60718293aff"
      [("name", .str "x")]).1 (by decide) (by decide)).1.1,
    ((unknown_identifier_response exampleLibrary sampleState "65a1b2c3d4e5f60718293aff"
      [("name", .str "x")]).1 (by decide) (by decide)).2.2⟩

/-- C7 as stated fails: no record of the sample state has the identifier `zzz`, and full
update, partial update and delete each answer 500 for it, not 404. -/
theorem malformed_identifier_server_error :
    (∀ d ∈ sampleState.products, hasId d "zzz" = false) ∧
    (putProduct exampleLibrary sampleState "zzz" [("name", .str "x")]).1.status = 500 ∧
    (patchProduct exampleLibrary sampleState "zzz" [("name", .str "x")]).1.status = 500 ∧
    (deleteProduct sampleState "zzz").1.status = 500 := by
  decide

/-- C8. In a collection whose identifiers are pairwise distinct, deleting an identifier
that a record has answers 200; afterwards no record has that identifier, the remaining
records are exactly the records with a different identifier, unchanged and in order, and
the Image Store is as it was. -/
theorem delete_removes_only_target (s : ServerState) (productId : String)
    (hunique : (s.products.map docId).Nodup)
    (hheld : ∃ d ∈ s.products, hasId d productId = true) :
    (deleteProduct s productId).1.status = 200 ∧
    (∀ d ∈ (deleteProduct s productId).2.products, hasId d productId = false) ∧
    (deleteProduct s productId).2.products
      = s.products.filter (fun d => !hasId d productId) ∧
    (∀ d ∈ s.products, hasId d productId = false →
      d ∈ (deleteProduct s productId).2.products) ∧
    (deleteProduct s productId).2.uploads = s.uploads := by
  obtain ⟨⟨d, hd⟩, hrem⟩ := removeFirst_of_present s.products productId hunique hheld
  have hwf : isObjectId productId = true := by
    obtain ⟨x, _, hx⟩ := hheld
    exact isObjectId_of_hasId x productId hx
  have hfd : findOneAndDelete s.products productId
      = .ok (some d, s.products.filter (fun d => !hasId d productId)) := by
    unfold findOneAndDelete
    rw [if_pos hwf, ← hd, ← hrem]
  have hdel : deleteProduct s productId
      = (jsonMessage 200 "message" "Product deleted successfully",
          ⟨s.products.filter (fun d => !hasId d productId), s.uploads⟩) := by
    simp [deleteProduct, hfd]
  rw [hdel]
  refine ⟨rfl, ?_, rfl, ?_, rfl⟩
  · intro x hx
    simpa using (List.mem_filter.mp hx).2
  · intro x hx hxid
    exact List.mem_filter.mpr ⟨hx, by simp [hxid]⟩

/-- Witness for C8: deleting the first product of the sample state. -/
theorem delete_removes_only_target_witness :
    (sampleState.products.map docId).Nodup ∧
    (∃ d ∈ sampleState.products, hasId d "65a1b2c3d4e5f60718293a4b" = true) ∧
    (deleteProduct sampleState "65a1b2c3d4e5f60718293a4b").1.status = 200 ∧
    (deleteProduct sampleState "65a1b2c3d4e5f60718293a4b").2.products = [otherProduct] ∧
    (deleteProduct sampleState "65a1b2c3d4e5f60718293a4b").2.uploads
      = sampleState.uploads :=
  ⟨by decide, ⟨sampleProduct, by decide, by decide⟩,
    (delete_removes_only_target sampleState "65a1b2c3d4e5f60718293a4b" (by decide)
      ⟨sampleProduct, by decide, by decide⟩).1,
    by decide,
    (delete_removes_only_target sampleState "65a1b2c3d4e5f60718293a4b" (by decide)
      ⟨sampleProduct, by decide, by decide⟩).2.2.2.2⟩

/-! ## Download -/

/-- C6, as the code has it. The download operation answers 500 for a route parameter that
is not a well-formed identifier, and 404 exactly when the identifier is well-formed and
either no record has it or the record's imagePath is absent or empty. Otherwise, the
imagePath being a non-empty text `f`, it answers 200 with the file that the path of `f`
resolves to and Content-Type `image/jpeg` when that file can be read, and 500 when it
cannot. -/
theorem download_response (lib : Library) (dirname : String) (s : ServerState)
    (productId : String) :
    (isObjectId productId = false →
      (downloadProduct lib dirname s productId).status = 500) ∧
    ((downloadProduct lib dirname s productId).status = 404 ↔
      (findById s.products productId = .ok none ∨
        ∃ p, findById s.products productId = .ok (some p) ∧
          (p.imagePath = .absent ∨ p.imagePath = .null ∨ p.imagePath = .val ""))) ∧
    (∀ p f, findById s.products productId = .ok (some p) → p.imagePath = .val f →
      f ≠ "" →
      (∀ content, lib.resolveFile s.uploads dirname f = some content →
        (downloadProduct lib dirname s productId).status = 200 ∧
        (downloadProduct lib dirname s productId).body
          = .download [dirname, "uploads", f] f content ∧
        headerValue (downloadProduct lib dirname s productId) "Content-Type"
          = some "image/jpeg") ∧
      (lib.resolveFile s.uploads dirname f = none →
        (downloadProduct lib dirname s productId).status = 500)) := by
  refine ⟨?_, ?_, ?_⟩
  · intro hwf
    simp [downloadProduct, findById_malformed s.products productId hwf, serverError,
      jsonMessage]
  · cases hfind : findById s.products productId with
    | error e => simp [downloadProduct, hfind, serverError, jsonMessage]
    | ok found =>
      cases found with
      | none => simp [downloadProduct, hfind, jsonMessage]
      | some p =>
        cases hv : p.imagePath with
        | absent => simp [downloadProduct, hfind, hv, textValue, truthy, jsonMessage]
        | null => simp [downloadProduct, hfind, hv, textValue, truthy, jsonMessage]
        | val f =>
          by_cases hne : f = ""
          · simp [downloadProduct, hfind, hv, textValue, truthy, hne, jsonMessage]
          · cases hread : lib.resolveFile s.uploads dirname f <;>
              simp [downloadProduct, hfind, hv, textValue, truthy, hne, hread]
  · intro p f hfind hv hne
    constructor
    · intro content hread
      simp [downloadProduct, hfind, hv, textValue, truthy, hne, hread, headerValue]
    · intro hread
      simp [downloadProduct, hfind, hv, textValue, truthy, hne, hread]

/-- Witness for C6: downloading the first product of the sample state. -/
theorem download_response_witness :
    findById sampleState.products "65a1b2c3d4e5f60718293a4b" = .ok (some sampleProduct) ∧
    sampleProduct.imagePath = .val "1700000000000.jpg" ∧
    exampleLibrary.resolveFile sampleState.uploads "/srv" "1700000000000.jpg"
      = some [255, 216, 255] ∧
    (downloadProduct exampleLibrary "/srv" sampleState "65a1b2c3d4e5f60718293a4b").status
      = 200 ∧
    (downloadProduct exampleLibrary "/srv" sampleState "65a1b2c3d4e5f60718293a4b").body
      = .download ["/srv", "uploads", "1700000000000.jpg"] "1700000000000.jpg"
          [255, 216, 255] ∧
    headerValue (downloadProduct exampleLibrary "/srv" sampleState
      "65a1b2c3d4e5f60718293a4b") "Content-Type" = some "image/jpeg" :=
  ⟨rfl, rfl, rfl,
    ((download_response exampleLibrary "/srv" sampleState "65a1b2c3d4e5f60718293a4b").2.2
      sampleProduct "1700000000000.jpg" rfl rfl (by decide)).1 [255, 216, 255] rfl⟩

/-- C6 as stated fails: the product of `danglingState` exists and its imagePath is the
non-empty text `ghost.jpg`, yet the download answers 500 with a JSON error body, neither
404 nor the file. -/
theorem download_of_missing_file :
    (∃ p, findById danglingState.products "65a1b2c3d4e5f60718293a4b" = .ok (some p) ∧
      p.imagePath = .val "ghost.jpg") ∧
    readFile danglingState.uploads "ghost.jpg" = none ∧
    (downloadProduct exampleLibrary "/srv" danglingState "65a1b2c3d4e5f60718293a4b").status
      = 500 ∧
    (downloadProduct exampleLibrary "/srv" danglingState "65a1b2c3d4e5f60718293a4b").body
      = .json (.obj [("message", .str "Server Error")]) :=
  ⟨⟨_, rfl, rfl⟩, rfl, rfl, rfl⟩

/-! ## Stored file names -/

theorem digitValue_digitChar (k : Nat) (h : k < 10) : digitValue (Nat.digitChar k) = k := by
  interval_cases k <;> rfl

theorem isDigit_digitChar (k : Nat) (h : k < 10) : (Nat.digitChar k).isDigit = true := by
  interval_cases k <;> rfl

theorem foldl_toDigitsCore (fuel : Nat) : ∀ (n : Nat) (ds : List Char), n < fuel →
    (Nat.toDigitsCore 10 fuel n ds).foldl (fun acc c => acc * 10 + digitValue c) 0
      = ds.foldl (fun acc c => acc * 10 + digitValue c) n := by
  induction fuel with
  | zero => intro n ds h; omega
  | succ fuel ih =>
    intro n ds h
    have hmod : n % 10 < 10 := Nat.mod_lt _ (by decide)
    by_cases hq : n / 10 = 0
    · have hn : n % 10 = n := Nat.mod_eq_of_lt (by omega)
      have hv : digitValue (Nat.digitChar n) = n := digitValue_digitChar n (by omega)
      simp [Nat.toDigitsCore, hq, hn, hv]
    · have hlt : n / 10 < fuel := by omega
      simp only [Nat.toDigitsCore, hq, if_false]
      rw [ih (n / 10) _ hlt]
      simp only [List.foldl_cons, digitValue_digitChar _ hmod]
      congr 1
      omega

theorem decimalValue_toDigits (n : Nat) : decimalValue (Nat.toDigits 10 n) = n := by
  unfold decimalValue Nat.toDigits
  rw [foldl_toDigitsCore (n + 1) n [] (by omega)]
  rfl

theorem isDigit_toDigitsCore (fuel : Nat) : ∀ (n : Nat) (ds : List Char),
    (∀ c ∈ ds, c.isDigit = true) → ∀ c ∈ Nat.toDigitsCore 10 fuel n ds, c.isDigit = true := by
  induction fuel with
  | zero => intro n ds h; simpa [Nat.toDigitsCore] using h
  | succ fuel ih =>
    intro n ds h
    have hmod : n % 10 < 10 := Nat.mod_lt _ (by decide)
    have hds : ∀ c ∈ Nat.digitChar (n % 10) :: ds, c.isDigit = true := by
      intro c hc
      rcases List.mem_cons.mp hc with rfl | hc
      · exact isDigit_digitChar _ hmod
      · exact h c hc
    by_cases hq : n / 10 = 0
    · simpa [Nat.toDigitsCore, hq] using hds
    · simp only [Nat.toDigitsCore, hq, if_false]
      exact ih _ _ hds

theorem isDigit_toDigits (n : Nat) : ∀ c ∈ Nat.toDigits 10 n, c.isDigit = true :=
  isDigit_toDigitsCore (n + 1) n [] (by simp)

theorem digits_append_cancel : ∀ (d1 d2 e1 e2 : List Char),
    (∀ c ∈ d1, c.isDigit = true) → (∀ c ∈ d2, c.isDigit = true) →
    (∀ c, e1.head? = some c → c.isDigit = false) →
    (∀ c, e2.head? = some c → c.isDigit = false) →
    d1 ++ e1 = d2 ++ e2 → d1 = d2 ∧ e1 = e2 := by
  intro d1
  induction d1 with
  | nil =>
    intro d2 e1 e2 _ h2 he1 _ heq
    cases d2 with
    | nil => exact ⟨rfl, by simpa using heq⟩
    | cons c d2 =>
      exfalso
      have hc := h2 c (List.mem_cons_self _ _)
      have hhead : e1.head? = some c := by simp at heq; simp [heq]
      rw [he1 c hhead] at hc
      exact Bool.false_ne_true hc
  | cons a d1 ih =>
    intro d2 e1 e2 h1 h2 he1 he2 heq
    cases d2 with
    | nil =>
      exfalso
      have hc := h1 a (List.mem_cons_self _ _)
      have hhead : e2.head? = some a := by simp at heq; simp [← heq]
      rw [he2 a hhead] at hc
      exact Bool.false_ne_true hc
    | cons b d2 =>
      simp only [List.cons_append, List.cons.injEq] at heq
      obtain ⟨hab, htl⟩ := heq
      obtain ⟨hd, he⟩ := ih d2 e1 e2 (fun c hc => h1 c (List.mem_cons_of_mem _ hc))
        (fun c hc => h2 c (List.mem_cons_of_mem _ hc)) he1 he2 htl
      exact ⟨by rw [hab, hd], he⟩

theorem storageFilename_data (extname : String → String) (now : Nat) (originalname : String) :
    (storageFilename extname now originalname).data
      = Nat.toDigits 10 now ++ (extname originalname).data := by
  simp [storageFilename, toString, Nat.repr, List.asString]

theorem storageFilename_eq_iff (extname : String → String) (now1 now2 : Nat)
    (name1 name2 : String)
    (hext : ∀ o, extname o = "" ∨ (extname o).data.head? = some '.') :
    storageFilename extname now1 name1 = storageFilename extname now2 name2 ↔
      now1 = now2 ∧ extname name1 = extname name2 := by
  constructor
  · intro h
    have hdata := congrArg String.data h
    rw [storageFilename_data, storageFilename_data] at hdata
    have hnd : ∀ o c, (extname o).data.head? = some c → c.isDigit = false := by
      intro o c hc
      rcases hext o with h0 | h0
      · rw [h0] at hc; simp at hc
      · rw [h0] at hc
        have : c = '.' := by simpa using hc.symm
        subst this
        rfl
    obtain ⟨hd, he⟩ := digits_append_cancel _ _ _ _ (isDigit_toDigits now1)
      (isDigit_toDigits now2) (hnd name1) (hnd name2) hdata
    refine ⟨?_, String.ext he⟩
    rw [← decimalValue_toDigits now1, ← decimalValue_toDigits now2, hd]
  · rintro ⟨h1, h2⟩
    simp [storageFilename, h1, h2]

/-- C9, as the code has it. Given that `path.extname` returns either the empty text or a
text that begins with a dot, two uploads get the same stored file name exactly when they
are handled in the same millisecond and their original names have the same extension; so
uploads handled in different milliseconds always get different file names. -/
theorem upload_filenames_eq_iff (extname : String → String) (now1 now2 : Nat)
    (file1 file2 : UploadedFile)
    (hext : ∀ o, extname o = "" ∨ (extname o).data.head? = some '.') :
    (storageFilename extname now1 file1.originalname
        = storageFilename extname now2 file2.originalname ↔
      now1 = now2 ∧ extname file1.originalname = extname file2.originalname) ∧
    (now1 ≠ now2 →
      storageFilename extname now1 file1.originalname
        ≠ storageFilename extname now2 file2.originalname) := by
  have hiff := storageFilename_eq_iff extname now1 now2 file1.originalname
    file2.originalname hext
  exact ⟨hiff, fun hne heq => hne (hiff.mp heq).1⟩

/-- Witness for C9: two uploads of `.jpg` files one millisecond apart. -/
theorem upload_filenames_eq_iff_witness :
    (∀ o : String, (fun _ => ".jpg") o = "" ∨
      (((fun _ => ".jpg") o : String)).data.head? = some '.') ∧
    storageFilename (fun _ => ".jpg") 1700000000005 "a.jpg"
      ≠ storageFilename (fun _ => ".jpg") 1700000000006 "b.jpg" :=
  ⟨fun _ => Or.inr rfl,
    (upload_filenames_eq_iff (fun _ => ".jpg") 1700000000005 1700000000006
      ⟨"a.jpg", [1]⟩ ⟨"b.jpg", [2]⟩ (fun _ => Or.inr rfl)).2 (by decide)⟩

/-- C9 as stated fails: two uploads of different `.jpg` files handled in the same
millisecond get the same stored file name, and the second upload replaces the first file
in the Image Store while both records name it. -/
theorem upload_filename_reused :
    storageFilename (fun _ => ".jpg") 1700000000005 "a.jpg" = "1700000000005.jpg" ∧
    storageFilename (fun _ => ".jpg") 1700000000005 "b.jpg" = "1700000000005.jpg" ∧
    readFile (createProduct (fun _ => ".jpg") exampleLibrary 1700000000005 "c" sampleState
      ⟨[("name", .str "First")], some ⟨"a.jpg", [1]⟩⟩).2.uploads "1700000000005.jpg"
        = some [1] ∧
    readFile (createProduct (fun _ => ".jpg") exampleLibrary 1700000000005 "d"
      (createProduct (fun _ => ".jpg") exampleLibrary 1700000000005 "c" sampleState
        ⟨[("name", .str "First")], some ⟨"a.jpg", [1]⟩⟩).2
      ⟨[("name", .str "Second")], some ⟨"b.jpg", [2]⟩⟩).2.uploads "1700000000005.jpg"
        = some [2] := by
  decide

/-! ## Client file name -/

theorem splitGo_of_not_infix (sep : List Char) : ∀ (rest cur : List Char),
    ¬ sep <:+: rest → splitGo sep rest 0 cur = [cur.reverse ++ rest] := by
  intro rest
  induction rest with
  | nil => intro cur _; simp [splitGo]
  | cons c rest ih =>
    intro cur h
    have hpre : sep.isPrefixOf (c :: rest) = false := by
      by_contra hp
      have hp' : sep.isPrefixOf (c :: rest) = true := by simpa using hp
      exact h (List.isPrefixOf_iff_prefix.mp hp').isInfix
    have hrest : ¬ sep <:+: rest := fun hi => h (hi.trans (List.suffix_cons c rest).isInfix)
    simp only [splitGo, hpre, Bool.false_eq_true, if_false]
    rw [ih (c :: cur) hrest]
    simp

theorem jsSplit_dispositionHeader (f : String) (h : ¬ "filename=".data <:+: f.data) :
    jsSplit (dispositionHeader f) "filename=" = ["attachment; ", f] := by
  have hsep : "filename=".data = ['f', 'i', 'l', 'e', 'n', 'a', 'm', 'e', '='] := rfl
  have hhead : (dispositionHeader f).data
      = ['a', 't', 't', 'a', 'c', 'h', 'm', 'e', 'n', 't', ';', ' ']
        ++ (['f', 'i', 'l', 'e', 'n', 'a', 'm', 'e', '='] ++ f.data) := by
    unfold dispositionHeader
    rw [String.data_append]
    rfl
  unfold jsSplit
  rw [hhead]
  rw [hsep] at h ⊢
  have hrest := splitGo_of_not_infix ['f', 'i', 'l', 'e', 'n', 'a', 'm', 'e', '='] f.data [] h
  simp [splitGo, List.isPrefixOf, hrest]

/-- C10, as the code has it. For a stored file name `f` that does not contain the text
`filename=`, the file name that the client's download handler derives from the header
value `attachment; filename=` followed by `f`, the value line 106 of the server sets, by
taking the second piece of the split on `filename=`, is exactly `f`. -/
theorem client_filename_of_header (f productId : String)
    (hclean : ¬ "filename=".data <:+: f.data) :
    downloadFileName (some (dispositionHeader f)) productId = some f := by
  have hne : dispositionHeader f ≠ "" := by
    intro he
    have hlen := congrArg String.length he
    unfold dispositionHeader at hlen
    rw [String.length_append] at hlen
    have h21 : "attachment; filename=".length = 21 := rfl
    have h0 : "".length = 0 := rfl
    omega
  simp [downloadFileName, hne, jsSplit_dispositionHeader f hclean]

/-- Witness for C10: the stored file name of the first sample product. -/
theorem client_filename_of_header_witness :
    ¬ "filename=".data <:+: "1700000000000.jpg".data ∧
    downloadFileName (some (dispositionHeader "1700000000000.jpg"))
      "65a1b2c3d4e5f60718293a4b" = some "1700000000000.jpg" :=
  ⟨by decide,
    client_filename_of_header "1700000000000.jpg" "65a1b2c3d4e5f60718293a4b" (by decide)⟩

/-- C10 as stated fails: for the product of `trickyState`, stored under
`1700000000000.filename=x`, the download answers 200 and the client derives, from the
Content-Disposition header of the response, a double quote followed by `1700000000000.`,
not the stored file name; for the first product of the sample state, stored under
`1700000000000.jpg`, it derives that name enclosed in double quotes. -/
theorem client_filename_differs :
    (∃ p, findById trickyState.products "65a1b2c3d4e5f60718293a4b" = .ok (some p) ∧
      p.imagePath = .val "1700000000000.filename=x") ∧
    (downloadProduct exampleLibrary "/srv" trickyState "65a1b2c3d4e5f60718293a4b").status
      = 200 ∧
    downloadFileName (headerValue (downloadProduct exampleLibrary "/srv" trickyState
      "65a1b2c3d4e5f60718293a4b") "Content-Disposition") "65a1b2c3d4e5f60718293a4b"
      = some "\"1700000000000." ∧
    "\"1700000000000." ≠ "1700000000000.filename=x" ∧
    downloadFileName (headerValue (downloadProduct exampleLibrary "/srv" sampleState
      "65a1b2c3d4e5f60718293a4b") "Content-Disposition") "65a1b2c3d4e5f60718293a4b"
      = some "\"1700000000000.jpg\"" ∧
    "\"1700000000000.jpg\"" ≠ "1700000000000.jpg" :=
  ⟨⟨_, rfl, rfl⟩, rfl, by decide, by decide, by decide, by decide⟩

end Catalog
